import Mathlib

/-!
Shallow embedding of `src/main.py` (an Amazon best-seller scraper with a
SQLite-backed HTTP API).  Pure structure of the Python code is translated to
Lean: HTML documents are abstracted as the results of the exact selector
lookups the code performs, HTTP fetches as `Except`-valued outcomes, the
SQLite tables as lists of rows with `INSERT OR REPLACE` modelled as
delete-then-append, and Python exceptions as `Except PyErr`.
-/

/-- Python exceptions that the embedded code paths can raise. -/
inductive PyErr where
  | nameError
  | valueError
  | requestException
deriving Repr, DecidableEq

/-- Python truthiness of an optional string (`if x:` where `x` is `None` or a
`str`): `None` and the empty string are falsy. -/
def pyTruthyStrOpt : Option String → Bool
  | none => false
  | some s => s != ""

/-- Accumulate decimal digits; any non-digit character fails (models the core
of CPython `int(str)` after stripping and sign handling). -/
def parseDigitsAux : List Char → Nat → Option Nat
  | [], acc => some acc
  | c :: cs, acc =>
      if c.isDigit then parseDigitsAux cs (acc * 10 + (c.toNat - 48)) else none

/-- Strip whitespace from both ends of a character list (models the
stripping Python `int()` applies to its string argument). -/
def trimChars (cs : List Char) : List Char :=
  ((cs.dropWhile Char.isWhitespace).reverse.dropWhile Char.isWhitespace).reverse

/-- Model of Python `s.replace('#', '')`: drop every occurrence of the
character. -/
def pyDropChar (s : String) (c : Char) : String :=
  ⟨s.toList.filter (fun x => x != c)⟩

/-- Model of Python `int(s)` on a string: strips surrounding whitespace,
accepts an optional sign followed by at least one decimal digit, and raises
`ValueError` otherwise. -/
def pyInt (s : String) : Except PyErr Int :=
  match trimChars s.toList with
  | [] => Except.error PyErr.valueError
  | c :: cs =>
      let signAndDigits : Bool × List Char :=
        if c = '-' then (true, cs)
        else if c = '+' then (false, cs)
        else (false, c :: cs)
      match signAndDigits with
      | (_, []) => Except.error PyErr.valueError
      | (neg, ds) =>
          match parseDigitsAux ds 0 with
          | some n => Except.ok (if neg then -(n : Int) else (n : Int))
          | none => Except.error PyErr.valueError

/-- Decimal expansion of the fractional part `num/den` (with `num < den`),
one digit per step, stopping when the remainder hits zero. -/
def fracDigitsStr : Nat → Nat → Nat → String
  | 0, _, _ => ""
  | fuel + 1, num, den =>
      if num = 0 then ""
      else
        let num10 := num * 10
        (Nat.digitChar (num10 / den)).toString ++ fracDigitsStr fuel (num10 % den) den

/-- Model of CPython `str()` on a float whose shortest decimal form is short
(the only floats the API receives, since they arrive as decimal query
strings): integer part, a dot, then the fractional digits, with a trailing
`0` when the value is integral — `str(4.5) = "4.5"`, `str(0.0) = "0.0"`. -/
def pyFloatStr (q : Rat) : String :=
  let n := q.num.natAbs
  let d := q.den
  let intPart := toString (n / d)
  let frac := fracDigitsStr 30 (n % d) d
  (if q < 0 then "-" else "") ++ intPart ++ "." ++ (if frac = "" then "0" else frac)

/-- One listing-entry container of a best-seller page, as seen through the
selector lookups performed inside the `for item in items[:limit]` loop of
`scrape_amazon_category`.  Each field is the outcome of the corresponding
`select_one` / `get` call: `none` means the element (or attribute) is absent,
`some s` means it is present with (stripped, where the code strips) text `s`.
`imgEl = some none` models an `img.a-dynamic-image` element that has no
`src` attribute (`img_el.get('src')` returning `None`). -/
structure Entry where
  /-- `item.get('data-p13n-asin-metadata')`. -/
  metadataAttr : Option String
  /-- stripped text of `div._cDEzb_p13n-sc-css-line-clamp-3_g3dy1`. -/
  titleEl : Option String
  /-- raw text of `.zg-bdg-text` (the rank badge). -/
  rankEl : Option String
  /-- stripped text of `span._cDEzb_p13n-sc-price_3mJ9Z`. -/
  priceEl : Option String
  /-- stripped text of `i.a-icon-star-small`. -/
  ratingEl : Option String
  /-- stripped text of `span.a-size-small`. -/
  reviewsEl : Option String
  /-- `img.a-dynamic-image` element and its `src` attribute. -/
  imgEl : Option (Option String)
deriving Repr, DecidableEq

/-- The product dict assembled per entry by `scrape_amazon_category`; also
the row shape of the SQLite `products` table (same columns). Timestamps are
abstracted as naturals. -/
structure Product where
  asin : String
  title : String
  rank : Int
  price : Option String
  list_price : Option String
  discount_percent : Option String
  rating : String
  reviews_count : String
  is_prime : Bool
  bsr_str : String
  bullet_points : String
  image_url : Option String
  category_url : String
  updated_at : Nat
deriving Repr, DecidableEq

/-- Body of the per-entry `try` block of `scrape_amazon_category`
(src/main.py lines 89-148).  NOTE: `src/main.py` never imports the `json`
module, so the expression `json.loads(item_json)['asin']` raises `NameError`
whenever `item_json` is truthy; only the falsy branch (`asin = "N/A"`)
avoids the name lookup.  The embedding reproduces this faithfully. -/
def parse_item (url : String) (now : Nat) (item : Entry) : Except PyErr Product :=
  if pyTruthyStrOpt item.metadataAttr then Except.error PyErr.nameError
  else
    let asin := "N/A"
    let title := item.titleEl.getD "Unknown Title"
    let rankRes := match item.rankEl with
      | some t => pyInt (pyDropChar t '#')
      | none => Except.ok 0
    match rankRes with
    | Except.error e => Except.error e
    | Except.ok rank =>
        let price := item.priceEl
        let rating := item.ratingEl.getD "N/A"
        let reviews := item.reviewsEl.getD "0"
        let image_url := match item.imgEl with
          | some srcAttr => srcAttr
          | none => some ""
        Except.ok ⟨asin, title, rank, price, none, none, rating, reviews, true,
          "#" ++ toString rank ++ " in Category",
          "Features available on product detail page.",
          image_url, url, now⟩

/-- An HTTP response to a category-page fetch, abstracted as its status code
and the parsed view of its body: the list of containers matched by
`soup.select('div[id^="p13n-asin-index"]')`. -/
structure Response where
  status_code : Int
  entries : List Entry
deriving Repr, DecidableEq

/-- `scrape_amazon_category(url, limit)` (src/main.py lines 69-158).  The
fetch outcome (`requests.get` either raising or returning a response) is
passed in; `datetime.now()` is passed in as `now`.  A raised exception is
caught by the outer `except` and yields `[]`; a non-200 status yields `[]`;
otherwise the first `limit` containers are parsed, and an entry whose parse
raises is skipped by the per-entry `except ... continue`. -/
def scrape_amazon_category (fetch : Except PyErr Response) (url : String)
    (now : Nat) (limit : Nat) : List Product :=
  match fetch with
  | Except.error _ => []
  | Except.ok resp =>
      if resp.status_code ≠ 200 then []
      else (resp.entries.take limit).filterMap
        (fun item => (parse_item url now item).toOption)

/-- The default of the `limit` parameter of `scrape_amazon_category`
(`limit: int = 5`). -/
def scrape_amazon_category_default_limit : Nat := 5

/-- One call of `scrape_amazon_category` under a network oracle `net`, where
`net i` is the outcome the network would give to the i-th HTTP request issued
during the call.  The body performs exactly one `requests.get` (there is no
per-entry detail fetch), so only `net 0` is consumed; the second component
records the number of HTTP requests performed. -/
def scrape_amazon_category_run (net : Nat → Except PyErr Response)
    (url : String) (now : Nat) (limit : Nat) : List Product × Nat :=
  (scrape_amazon_category (net 0) url now limit, 1)

/-- `INSERT OR REPLACE INTO products` keyed by the `asin` primary key:
any existing row with the same key is deleted, the new row inserted. -/
def upsert_product (db : List Product) (p : Product) : List Product :=
  db.filter (fun r => r.asin ≠ p.asin) ++ [p]

/-- The response dict of `POST /api/scrape`: the error shape has `status`,
`message`, `data`; the success shape has `status`, `count`, `data`.  Absent
keys are `none`. -/
structure ScrapeResponse where
  status : String
  message : Option String
  count : Option Nat
  data : List Product
deriving Repr, DecidableEq

/-- `trigger_scrape` (src/main.py lines 242-261): runs the pipeline with the
default limit; on an empty result returns the error response before any
`sqlite3.connect`, otherwise opens one connection, upserts every item in
order, and returns the success response.  Output: the JSON response, the
resulting `products` table, and the number of database connections opened. -/
def trigger_scrape (fetch : Except PyErr Response) (url : String) (now : Nat)
    (db : List Product) : ScrapeResponse × List Product × Nat :=
  let items := scrape_amazon_category fetch url now scrape_amazon_category_default_limit
  if items.isEmpty then
    (⟨"error", some "Failed to scrape or blocked by Amazon", none, []⟩, db, 0)
  else
    (⟨"success", none, some items.length, items⟩, items.foldl upsert_product db, 1)

/-- Lexicographic order on character lists, by code point. -/
def charListLe : List Char → List Char → Bool
  | [], _ => true
  | _ :: _, [] => false
  | a :: as, b :: bs =>
      if a.toNat < b.toNat then true
      else if b.toNat < a.toNat then false
      else charListLe as bs

/-- SQLite text comparison `a <= b` under the default BINARY collation
(byte-wise memcmp; on the ASCII data at hand this coincides with
code-point-wise lexicographic order). -/
def sqliteTextLe (a b : String) : Bool := charListLe a.toList b.toList

/-- Rank-ascending comparison used by `ORDER BY rank ASC`. -/
def rankRel (a b : Product) : Prop := a.rank ≤ b.rank

instance : DecidableRel rankRel := fun a b => inferInstanceAs (Decidable (a.rank ≤ b.rank))

instance : IsTotal Product rankRel := ⟨fun a b => Int.le_total a.rank b.rank⟩

instance : IsTrans Product rankRel := ⟨fun _ _ _ h1 h2 => le_trans h1 h2⟩

/-- `get_products` (src/main.py lines 263-285), i.e. `GET /api/products`:
when `min_rating` is truthy (present and nonzero — `if min_rating:` is false
for `0.0`) the SQL gains `WHERE rating >= ?` with parameter
`str(min_rating)`, a textual comparison under SQLite's BINARY collation,
modelled as lexicographic string order; then `ORDER BY rank ASC`. -/
def get_products (db : List Product) (min_rating : Option Rat) : List Product :=
  let rows := match min_rating with
    | some q => if q ≠ 0 then db.filter (fun r => sqliteTextLe (pyFloatStr q) r.rating) else db
    | none => db
  List.insertionSort rankRel rows

/-- An anchor matched on the best-sellers index page: its `href` attribute
(possibly absent) and its stripped display text. -/
structure CatLink where
  href : Option String
  text : String
deriving Repr, DecidableEq

/-- The best-sellers index page, abstracted as selector results.
`primaryLinks` holds the anchors matched by the one selector the code uses,
`soup.select('div[role="group"] div[role="treeitem"] a')`; `fallbackLinks`
holds what a hypothetical secondary selector would match on the same page
(the code never reads it — it is here so that claims about fallback
behaviour can be stated). -/
structure CategoryPage where
  primaryLinks : List CatLink
  fallbackLinks : List CatLink
deriving Repr, DecidableEq

/-- A category dict returned by `scrape_root_categories`. -/
structure Category where
  name : String
  url : String
deriving Repr, DecidableEq

/-- A row of the SQLite `categories` table. -/
structure CatRow where
  url : String
  name : String
  updated_at : Nat
deriving Repr, DecidableEq

/-- `INSERT OR REPLACE INTO categories` keyed by the `url` primary key. -/
def upsert_category (db : List CatRow) (r : CatRow) : List CatRow :=
  db.filter (fun x => x.url ≠ r.url) ++ [r]

/-- `scrape_root_categories` (src/main.py lines 160-190): fetches the index,
selects anchors with the single selector, and for each anchor with truthy
`href` and truthy text builds the absolute URL, upserts a category row and
appends the category dict.  Any raised exception yields `([], db)` via the
outer `except`.  Output: the returned category list and the resulting
`categories` table. -/
def scrape_root_categories (fetch : Except PyErr CategoryPage) (now : Nat)
    (db : List CatRow) : List Category × List CatRow :=
  match fetch with
  | Except.error _ => ([], db)
  | Except.ok page =>
      page.primaryLinks.foldl
        (fun acc link =>
          if pyTruthyStrOpt link.href && (link.text != "") then
            let full := "https://www.amazon.com" ++ link.href.getD ""
            (acc.1 ++ [⟨link.text, full⟩], upsert_category acc.2 ⟨full, link.text, now⟩)
          else acc)
        ([], db)

/-- A well-formed listing entry whose metadata attribute is present (as on
every real best-seller page): its parse hits the unimported `json` name. -/
def entryWithMetadata : Entry :=
  ⟨some "\x7b\"asin\": \"B0TEST123\"\x7d", some "Example Product", some "#1",
   some "$9.99", some "4.5 out of 5 stars", some "1,234",
   some (some "https://img.example/x.jpg")⟩

/-- A well-formed listing entry with the metadata attribute absent: every
field extractor runs, the identifier degrades to its sentinel. -/
def entryNoMetadata : Entry :=
  ⟨none, some "Example Product", some "#1", some "$9.99",
   some "4.5 out of 5 stars", some "1,234", some (some "https://img.example/x.jpg")⟩

/-- The record `parse_item` produces for `entryNoMetadata`. -/
def productNoMetadata : Product :=
  ⟨"N/A", "Example Product", 1, some "$9.99", none, none, "4.5 out of 5 stars",
   "1,234", true, "#1 in Category",
   "Features available on product detail page.",
   some "https://img.example/x.jpg", "https://cat.example", 7⟩

/-- Network oracle serving three 503 responses and then a 200 response
carrying one parsable entry. -/
def netThree503ThenOk : Nat → Except PyErr Response :=
  fun i => if i < 3 then Except.ok ⟨503, []⟩
           else Except.ok ⟨200, [entryNoMetadata]⟩

/-- Index page on which the code's selector matches nothing but a secondary
selector would match two category links. -/
def pagePrimaryEmpty : CategoryPage :=
  ⟨[], [⟨some "/gp/bestsellers/books", "Books"⟩, ⟨some "/gp/bestsellers/toys", "Toys"⟩]⟩

/-- A persisted product row whose rating string is empty. -/
def rowEmptyRating : Product :=
  ⟨"B000EMPTY0", "No Rating Item", 1, some "$1.00", none, none, "",
   "0", true, "#1 in Category", "Features available on product detail page.",
   some "", "https://cat.example", 7⟩

/-- Network oracle whose every response is a 200 page with one parsable
entry. -/
def netOneEntry : Nat → Except PyErr Response :=
  fun _ => Except.ok ⟨200, [entryNoMetadata]⟩

/-- A persisted row rated "4.5 out of 5 stars", rank 2. -/
def rowHighRating : Product :=
  ⟨"B000HIGH00", "High Rated", 2, some "$2.00", none, none, "4.5 out of 5 stars",
   "10", true, "#2 in Category", "Features available on product detail page.",
   some "", "https://cat.example", 7⟩

/-- A persisted row rated "3.0 out of 5 stars", rank 1. -/
def rowLowRating : Product :=
  ⟨"B000LOW000", "Low Rated", 1, some "$1.00", none, none, "3.0 out of 5 stars",
   "5", true, "#1 in Category", "Features available on product detail page.",
   some "", "https://cat.example", 7⟩

/-- The rational 9/2, the value of the float `4.5` the API receives for
`min_rating=4.5` (built with explicit numerator and denominator so that it
computes by kernel reduction). -/
def ratFourFive : Rat := Rat.mk' 9 2 (by decide) (by decide)

/-- First upsert of identifier B0SAMEASIN. -/
def productV1 : Product :=
  ⟨"B0SAMEASIN", "Old Title", 1, some "$1.00", none, none, "3.0 out of 5 stars",
   "5", true, "#1 in Category", "Features available on product detail page.",
   some "https://img.example/old.jpg", "https://cat.example/old", 7⟩

/-- Second upsert of identifier B0SAMEASIN, every non-key field changed. -/
def productV2 : Product :=
  ⟨"B0SAMEASIN", "New Title", 2, some "$2.00", none, none, "4.5 out of 5 stars",
   "10", true, "#2 in Category", "Features available on product detail page.",
   some "https://img.example/new.jpg", "https://cat.example/new", 8⟩

/-- Claim C1: per-listing-entry field extraction never fails — each field
degrades to its documented sentinel instead of aborting the record.  The
claim is right about the intent, but `src/main.py` never imports `json`, so
on any entry whose `data-p13n-asin-metadata` attribute is present (the
normal case) the expression `json.loads(item_json)` raises `NameError`, the
per-entry handler catches it, and the whole record is dropped: extraction of
a fully well-formed entry aborts instead of producing a record.  This
theorem evaluates the code at the failing input: the entry parse raises
`NameError` and the page scrape returns no record for it, while the same
entry with the attribute absent yields the record with the documented
sentinels in place. -/
theorem c1_missing_json_import_aborts_entry :
    parse_item "https://cat.example" 7 entryWithMetadata = Except.error PyErr.nameError ∧
    scrape_amazon_category (Except.ok ⟨200, [entryWithMetadata]⟩) "https://cat.example" 7 5 = [] ∧
    parse_item "https://cat.example" 7 entryNoMetadata = Except.ok productNoMetadata ∧
    productNoMetadata.asin = "N/A" := by
  refine ⟨rfl, rfl, rfl, rfl⟩

/-- Claim C2 counterexample: under a network giving three consecutive 503
responses and then a success, the code performs exactly one HTTP attempt
(not four) and returns the empty list (not the records of the successful
response): `requests.get` in `scrape_amazon_category` is called once, with
no retry loop, no 503 handling and no challenge-marker check. -/
theorem c2_counterexample_no_retry :
    (scrape_amazon_category_run netThree503ThenOk "https://cat.example" 7 5).2 = 1 ∧
    (scrape_amazon_category_run netThree503ThenOk "https://cat.example" 7 5).2 ≠ 4 ∧
    (scrape_amazon_category_run netThree503ThenOk "https://cat.example" 7 5).1 = [] := by
  exact ⟨rfl, by decide, rfl⟩

/-- Claim C2 as amended: every call of `scrape_amazon_category` performs
exactly one HTTP attempt; a 503 response — like any non-200 response — is
not retried and yields the empty result immediately (as does a raised
request exception).  There is no retry ceiling, no inter-attempt wait and
no anti-bot-marker classification anywhere in the code. -/
theorem c2_single_attempt_no_retry (net : Nat → Except PyErr Response)
    (url : String) (now limit : Nat) :
    (scrape_amazon_category_run net url now limit).2 = 1 ∧
    (∀ resp, net 0 = Except.ok resp → resp.status_code ≠ 200 →
      (scrape_amazon_category_run net url now limit).1 = []) ∧
    (∀ e, net 0 = Except.error e →
      (scrape_amazon_category_run net url now limit).1 = []) := by
  refine ⟨rfl, ?_, ?_⟩
  · intro resp h hs
    simp [scrape_amazon_category_run, scrape_amazon_category, h, hs]
  · intro e h
    simp [scrape_amazon_category_run, scrape_amazon_category, h]

/-- Witness for `c2_single_attempt_no_retry` at the 503-serving network. -/
theorem c2_single_attempt_no_retry_witness :
    (scrape_amazon_category_run netThree503ThenOk "u" 7 5).2 = 1 ∧
    (scrape_amazon_category_run netThree503ThenOk "u" 7 5).1 = [] :=
  ⟨(c2_single_attempt_no_retry netThree503ThenOk "u" 7 5).1,
   (c2_single_attempt_no_retry netThree503ThenOk "u" 7 5).2.1 ⟨503, []⟩ rfl (by decide)⟩

/-- Claim C3 counterexample: on an index page where the code's selector
matches zero anchors but a secondary selector would match two, category
discovery returns the empty list, not those two categories — there is no
fallback selector in `scrape_root_categories`. -/
theorem c3_counterexample_no_fallback :
    (scrape_root_categories (Except.ok pagePrimaryEmpty) 7 []).1 = [] ∧
    (scrape_root_categories (Except.ok pagePrimaryEmpty) 7 []).1 ≠
      [⟨"Books", "https://www.amazon.com/gp/bestsellers/books"⟩,
       ⟨"Toys", "https://www.amazon.com/gp/bestsellers/toys"⟩] := by
  exact ⟨rfl, by decide⟩

/-- Claim C3 as amended: category discovery extracts links with a single
selector and has no fallback; whenever that selector matches zero anchors
the run returns no categories and leaves the categories table unchanged,
regardless of what any secondary selector would have matched. -/
theorem c3_primary_empty_returns_empty (page : CategoryPage) (now : Nat)
    (db : List CatRow) (h : page.primaryLinks = []) :
    scrape_root_categories (Except.ok page) now db = ([], db) := by
  simp [scrape_root_categories, h]

/-- Witness for `c3_primary_empty_returns_empty` at a page whose fallback
selector would match two links. -/
theorem c3_primary_empty_returns_empty_witness :
    scrape_root_categories (Except.ok pagePrimaryEmpty) 7 [] = ([], []) :=
  c3_primary_empty_returns_empty pagePrimaryEmpty 7 [] rfl

/-- Claim C5: `scrape_amazon_category` returns at most `limit` records no
matter how many listing-entry containers the page holds — the slice
`items[:limit]` truncates before any per-entry processing — and the
default of the `limit` parameter is 5. -/
theorem c5_limit_truncation (fetch : Except PyErr Response) (url : String)
    (now limit : Nat) :
    (scrape_amazon_category fetch url now limit).length ≤ limit ∧
    scrape_amazon_category_default_limit = 5 := by
  refine ⟨?_, rfl⟩
  cases fetch with
  | error e => simp [scrape_amazon_category]
  | ok resp =>
      simp only [scrape_amazon_category]
      split
      · simp
      · exact le_trans (List.length_filterMap_le _ _) (List.length_take_le _ _)

/-- Claim C8: whole-page extraction never raises to its caller — a raised
request exception (network or timeout error), a non-2xx status, and a page
on which the listing-container selector matches nothing all make
`scrape_amazon_category` return the empty list rather than propagate a
failure. -/
theorem c8_fatal_failures_yield_empty :
    (∀ (e : PyErr) (url : String) (now limit : Nat),
      scrape_amazon_category (Except.error e) url now limit = []) ∧
    (∀ (resp : Response) (url : String) (now limit : Nat),
      resp.status_code ≠ 200 →
      scrape_amazon_category (Except.ok resp) url now limit = []) ∧
    (∀ (resp : Response) (url : String) (now limit : Nat),
      resp.entries = [] →
      scrape_amazon_category (Except.ok resp) url now limit = []) := by
  refine ⟨fun e url now limit => rfl, ?_, ?_⟩
  · intro resp url now limit h
    simp [scrape_amazon_category, h]
  · intro resp url now limit h
    simp only [scrape_amazon_category]
    split
    · rfl
    · simp [h]

/-- Witness for `c8_fatal_failures_yield_empty`: a raised exception, a 404
response, and a container-less 200 page. -/
theorem c8_fatal_failures_yield_empty_witness :
    scrape_amazon_category (Except.error PyErr.requestException) "u" 7 5 = [] ∧
    scrape_amazon_category (Except.ok ⟨404, [entryNoMetadata]⟩) "u" 7 5 = [] ∧
    scrape_amazon_category (Except.ok ⟨200, []⟩) "u" 7 5 = [] :=
  ⟨c8_fatal_failures_yield_empty.1 PyErr.requestException "u" 7 5,
   c8_fatal_failures_yield_empty.2.1 ⟨404, [entryNoMetadata]⟩ "u" 7 5 (by decide),
   c8_fatal_failures_yield_empty.2.2 ⟨200, []⟩ "u" 7 5 rfl⟩

/-- Claim C10: when the pipeline yields zero records, `trigger_scrape`
returns the error response before any `sqlite3.connect` — zero database
connections are opened and the products table is left exactly as it was. -/
theorem c10_error_before_db_connection (fetch : Except PyErr Response)
    (url : String) (now : Nat) (db : List Product)
    (h : scrape_amazon_category fetch url now scrape_amazon_category_default_limit = []) :
    trigger_scrape fetch url now db =
      (⟨"error", some "Failed to scrape or blocked by Amazon", none, []⟩, db, 0) := by
  simp [trigger_scrape, h]

/-- Witness for `c10_error_before_db_connection` at a failed fetch over a
nonempty products table. -/
theorem c10_error_before_db_connection_witness :
    trigger_scrape (Except.error PyErr.requestException) "u" 7 [rowEmptyRating] =
      (⟨"error", some "Failed to scrape or blocked by Amazon", none, []⟩,
       [rowEmptyRating], 0) :=
  c10_error_before_db_connection (Except.error PyErr.requestException) "u" 7
    [rowEmptyRating] rfl

/-- Claim C4 counterexample: `GET /products?min_rating=0` (a provided
`min_rating` value) returns a persisted row whose rating string does not
satisfy the textual comparison `rating >= str(min_rating)`, because
`if min_rating:` is false for the float `0.0` and the filter is skipped
entirely. -/
theorem c4_counterexample_zero_min_rating :
    get_products [rowEmptyRating] (some 0) = [rowEmptyRating] ∧
    pyFloatStr 0 = "0.0" ∧
    sqliteTextLe (pyFloatStr 0) rowEmptyRating.rating = false := by
  exact ⟨by decide, rfl, rfl⟩

/-- Claim C4 as amended: `GET /products` with a nonzero `min_rating` value
returns, in rank-ascending order, exactly the persisted rows whose stored
rating string is `>= str(min_rating)` under SQLite's textual BINARY
comparison; with `min_rating` absent — or equal to `0`, which Python
truthiness treats as absent — all rows are returned in rank-ascending
order. -/
theorem c4_textual_filter_rank_sorted (db : List Product) (m : Option Rat) :
    List.Sorted rankRel (get_products db m) ∧
    (∀ q, m = some q → q ≠ 0 →
      (get_products db m).Perm
        (db.filter (fun r => sqliteTextLe (pyFloatStr q) r.rating))) ∧
    ((m = none ∨ m = some 0) → (get_products db m).Perm db) := by
  refine ⟨List.sorted_insertionSort rankRel _, ?_, ?_⟩
  · intro q hm hq
    subst hm
    simp only [get_products, hq, if_pos, ne_eq, not_false_iff, if_true]
    exact List.perm_insertionSort rankRel _
  · intro hm
    rcases hm with h | h <;> subst h
    · exact List.perm_insertionSort rankRel db
    · simp only [get_products, ne_eq, not_true, not_false_eq_true, if_neg, not_not]
      exact List.perm_insertionSort rankRel db

/-- Witness for `c4_textual_filter_rank_sorted`: the spec's own test
scenario — a store holding rows rated "4.5 out of 5 stars" (rank 2) and
"3.0 out of 5 stars" (rank 1), queried with `min_rating=4.5`, yields
exactly the higher-rated row, sorted. -/
theorem c4_textual_filter_rank_sorted_witness :
    List.Sorted rankRel (get_products [rowHighRating, rowLowRating] (some ratFourFive)) ∧
    (get_products [rowHighRating, rowLowRating] (some ratFourFive)).Perm [rowHighRating] := by
  have h := c4_textual_filter_rank_sorted [rowHighRating, rowLowRating] (some ratFourFive)
  have hf : [rowHighRating, rowLowRating].filter
      (fun r => sqliteTextLe (pyFloatStr ratFourFive) r.rating) = [rowHighRating] := by decide
  have hp := h.2.1 ratFourFive rfl (by decide)
  rw [hf] at hp
  exact ⟨h.1, hp⟩

/-- Claim C6: product upsert is last-write-wins keyed by the `asin` primary
key — after upserting two records with the same identifier, a table that
started empty holds exactly the second record, and in any table the rows
carrying that identifier are exactly the second record, every field taken
from the second call. -/
theorem c6_upsert_last_write_wins (db : List Product) (p1 p2 : Product)
    (h : p1.asin = p2.asin) :
    upsert_product (upsert_product [] p1) p2 = [p2] ∧
    (upsert_product (upsert_product db p1) p2).filter
      (fun r => r.asin == p2.asin) = [p2] := by
  constructor
  · simp [upsert_product, h]
  · simp only [upsert_product, List.filter_append, List.filter_filter]
    rw [h]
    simp [List.filter_eq_nil_iff]

/-- Witness for `c6_upsert_last_write_wins`: two concrete records sharing
identifier B0SAMEASIN with different values in every other field, over an
initially nonempty table. -/
theorem c6_upsert_last_write_wins_witness :
    upsert_product (upsert_product [] productV1) productV2 = [productV2] ∧
    (upsert_product (upsert_product [rowEmptyRating] productV1) productV2).filter
      (fun r => r.asin == productV2.asin) = [productV2] :=
  c6_upsert_last_write_wins [rowEmptyRating] productV1 productV2 rfl

/-- Claim C7: `POST /api/scrape` reports status "error" exactly when the
pipeline yields zero records; otherwise it reports status "success" with
`count` equal to the number of records and `data` holding exactly those
records. -/
theorem c7_scrape_status_error_iff_empty (fetch : Except PyErr Response)
    (url : String) (now : Nat) (db : List Product) :
    ((trigger_scrape fetch url now db).1.status = "error" ↔
      scrape_amazon_category fetch url now scrape_amazon_category_default_limit = []) ∧
    (scrape_amazon_category fetch url now scrape_amazon_category_default_limit ≠ [] →
      (trigger_scrape fetch url now db).1.status = "success" ∧
      (trigger_scrape fetch url now db).1.count =
        some (scrape_amazon_category fetch url now scrape_amazon_category_default_limit).length ∧
      (trigger_scrape fetch url now db).1.data =
        scrape_amazon_category fetch url now scrape_amazon_category_default_limit) := by
  by_cases h : scrape_amazon_category fetch url now scrape_amazon_category_default_limit = []
  · simp [trigger_scrape, h]
  · simp [trigger_scrape, h]

/-- Witness for `c7_scrape_status_error_iff_empty` at a successful fetch
whose page carries one parsable entry. -/
theorem c7_scrape_status_error_iff_empty_witness :
    (trigger_scrape (Except.ok ⟨200, [entryNoMetadata]⟩) "https://cat.example" 7 []).1.status
      = "success" ∧
    (trigger_scrape (Except.ok ⟨200, [entryNoMetadata]⟩) "https://cat.example" 7 []).1.count
      = some 1 := by
  have h := ((c7_scrape_status_error_iff_empty (Except.ok ⟨200, [entryNoMetadata]⟩)
    "https://cat.example" 7 []).2 (by decide))
  exact ⟨h.1, by rw [h.2.1]; decide⟩


/-- Every record `parse_item` succeeds with carries the placeholder
enrichment values hard-coded in the entry loop: `is_prime = True` and the
fixed bullet string. -/
theorem parse_item_ok_placeholder_fields (url : String) (now : Nat)
    (item : Entry) (p : Product) (h : parse_item url now item = Except.ok p) :
    p.is_prime = true ∧
    p.bullet_points = "Features available on product detail page." := by
  by_cases ht : pyTruthyStrOpt item.metadataAttr
  · simp [parse_item, ht] at h
  · simp only [parse_item, ht, if_false, Bool.false_eq_true] at h
    rcases hre : item.rankEl with _ | t
    · simp only [hre, Except.ok.injEq] at h
      subst h
      exact ⟨rfl, rfl⟩
    · simp only [hre] at h
      rcases hpi : pyInt (pyDropChar t '#') with e | rank
      · simp [hpi] at h
      · simp only [hpi, Except.ok.injEq] at h
        subst h
        exact ⟨rfl, rfl⟩

/-- Claim C9: every product record returned by `scrape_amazon_category` has
its delivery-program eligibility flag set to `True` and its bullet text set
to the fixed placeholder "Features available on product detail page.", and
the pipeline performs exactly one HTTP request per call — no secondary
per-entry detail fetch ever happens, whatever the page contains. -/
theorem c9_placeholders_and_single_fetch (net : Nat → Except PyErr Response)
    (url : String) (now limit : Nat) :
    (scrape_amazon_category_run net url now limit).2 = 1 ∧
    (∀ p ∈ (scrape_amazon_category_run net url now limit).1,
      p.is_prime = true ∧
      p.bullet_points = "Features available on product detail page.") := by
  refine ⟨rfl, ?_⟩
  intro p hp
  simp only [scrape_amazon_category_run] at hp
  cases hn : net 0 with
  | error e =>
      rw [hn] at hp
      simp [scrape_amazon_category] at hp
  | ok resp =>
      rw [hn] at hp
      simp only [scrape_amazon_category] at hp
      split at hp
      · simp at hp
      · simp only [List.mem_filterMap] at hp
        obtain ⟨item, _, hitem⟩ := hp
        cases hpi : parse_item url now item with
        | error e =>
            rw [hpi] at hitem
            simp [Except.toOption] at hitem
        | ok q =>
            rw [hpi] at hitem
            simp only [Except.toOption, Option.some.injEq] at hitem
            subst hitem
            exact parse_item_ok_placeholder_fields url now item q hpi

/-- Witness for `c9_placeholders_and_single_fetch` at a network serving a
page with one parsable entry: the returned record carries the placeholder
eligibility and bullet text, and one request was made. -/
theorem c9_placeholders_and_single_fetch_witness :
    (scrape_amazon_category_run netOneEntry "https://cat.example" 7 5).2 = 1 ∧
    (productNoMetadata.is_prime = true ∧
     productNoMetadata.bullet_points = "Features available on product detail page.") :=
  ⟨(c9_placeholders_and_single_fetch netOneEntry "https://cat.example" 7 5).1,
   (c9_placeholders_and_single_fetch netOneEntry "https://cat.example" 7 5).2
     productNoMetadata (by decide)⟩
